import Mathlib

/-!
# Pylontech CAN-bus emulation (`ESPController/src/pylon_canbus.cpp`)

A shallow embedding of the frame builders of `pylon_canbus.cpp`.  Every builder
reads the controller globals (`_controller_state`, `rules`, `mysettings`,
`currentMonitor`), fills a packed struct and hands its bytes to
`send_canbus_message`.  Here the globals are gathered in a `Snapshot`, the bus
is an explicit log of the frames sent so far, and a struct is serialised field
by field in little-endian order (the byte order of the ESP32 the code runs on).
-/

namespace PylonCanbus

/-! ## Data model -/

/-- Modelled from the spec: the enumeration `ControllerState` is declared in a
header that is not among the sources; the spec gives it as
"{Initializing, Running, Error/Other}".  The builders only ever compare the
state with `Running`. -/
inductive ControllerState
  | Initializing
  | Running
  | Other
  deriving DecidableEq, Repr

/-- Modelled from the spec: the rule identifiers indexing `rules.rule_outcome`;
the enumeration is declared in a missing header, these are the members that
`pylon_canbus.cpp` reads. -/
inductive Rule
  | BankOverVoltage
  | BankUnderVoltage
  | ModuleOverTemperatureExternal
  | ModuleUnderTemperatureExternal
  | BMSError
  | EmergencyStop
  | CurrentMonitorOverVoltage
  | CurrentMonitorUnderVoltage
  deriving DecidableEq, Repr

/-- Modelled from the spec: the kind of current monitor configured
("the monitor device kind matches the supported type"); the enumeration is
declared in a missing header and `DIYBMS_CURRENT_MON` is the only member the
source names. -/
inductive CurrentMonitorDevice
  | DIYBMS_CURRENT_MON
  | OtherDevice
  deriving DecidableEq, Repr

/-- Modelled from the spec: the fields of the global `rules` object that the
builders read (its class is declared in a missing header).  Temperatures are
signed integers, counts and voltages unsigned. -/
structure Rules where
  rule_outcome : Rule → Bool
  moduleHasExternalTempSensor : Bool
  numberOfBalancingModules : Nat
  lowestExternalTemp : Int
  highestExternalTemp : Int
  highestPackVoltage : Nat

/-- Modelled from the spec: the fields of the global `mysettings` that the
builders read (the settings struct is declared in a missing header).  The four
limits are kept as unbounded integers; they are reduced to 16 bits when they
are stored in a frame struct, as the C++ assignment does. -/
structure Settings where
  chargevolt : Int
  chargecurrent : Int
  dischargecurrent : Int
  dischargevolt : Int
  chargetemplow : Int
  chargetemphigh : Int
  dischargetemplow : Int
  dischargetemphigh : Int
  stopchargebalance : Bool
  socoverride : Bool
  currentMonitoringEnabled : Bool
  currentMonitoringDevice : CurrentMonitorDevice
  nominalbatcap : Nat

/-- Modelled from the spec: the readings `currentMonitor.modbus.voltage` and
`currentMonitor.modbus.current` (floating point, declared in a missing header).
Floating point is not modelled: the snapshot carries the integers that the
products `modbus.voltage * 100.0` and `modbus.current * 10` convert to. -/
structure Modbus where
  voltage_times_100 : Int
  current_times_10 : Int

/-- Modelled from the spec: the fields of the global `currentMonitor` read by
the builders (declared in a missing header); `stateofcharge` is the reported
percentage as an integer. -/
structure CurrentMonitor where
  modbus : Modbus
  validReadings : Bool
  stateofcharge : Int

/-- The globals a builder reads, frozen for the duration of one call. -/
structure Snapshot where
  _controller_state : ControllerState
  rules : Rules
  mysettings : Settings
  currentMonitor : CurrentMonitor

/-! ## Machine arithmetic -/

/-- Conversion to `uint8_t`. -/
def to_uint8 (n : Nat) : Nat := n % 256

/-- Conversion to `uint16_t`: the value modulo `2^16`. -/
def to_uint16 (v : Int) : Nat := (v % 65536).toNat

/-- Conversion to `int16_t`: the value wrapped into `[-32768, 32767]`. -/
def to_int16 (v : Int) : Int := (v + 32768) % 65536 - 32768

/-- The C++ expression `a | b` on two `bool` operands used as a condition: both
are promoted to `int` (0 or 1), OR-ed bitwise, and the result is true when it
is not zero. -/
def bool_bitor (a b : Bool) : Bool := (a.toNat ||| b.toNat) != 0

/-- The C++ expression `c ? 1 : 0`. -/
def one_if (c : Bool) : Nat := if c then 1 else 0

/-- The two bytes of a `uint16_t` in memory, low byte first. -/
def bytes_u16 (n : Nat) : List Nat := [n % 256, n / 256 % 256]

/-- The two bytes of an `int16_t` in memory (two's complement), low byte first. -/
def bytes_i16 (v : Int) : List Nat := bytes_u16 (v % 65536).toNat

/-! ## Transport -/

/-- One CAN frame as handed to the transport. -/
structure Frame where
  identifier : Nat
  length : Nat
  data : List Nat
  deriving DecidableEq, Repr

/-- The frames sent so far, oldest first. -/
abbrev CanBus := List Frame

/-- Modelled from the spec: `send_canbus_message(identifier, buffer, length)` is
defined outside `pylon_canbus.cpp`; the spec gives it as
"sendFrame(identifier, payload, length)", the only side effect of a builder.
It sends the first `length` bytes found at `buffer`. -/
def send_canbus_message (identifier : Nat) (buffer : List Nat) (length : Nat)
    (bus : CanBus) : CanBus :=
  bus ++ [{ identifier := identifier, length := length, data := buffer.take length }]

/-! ## 0x351: voltage and current limits -/

/-- The local struct `data351` of `pylon_message_351`. -/
structure data351 where
  battery_charge_voltage : Nat
  battery_charge_current_limit : Int
  battery_discharge_current_limit : Int
  battery_discharge_voltage : Nat
  deriving DecidableEq, Repr

/-- The bytes of a `data351` in memory (`(uint8_t *)&data`). -/
def data351.bytes (d : data351) : List Nat :=
  bytes_u16 d.battery_charge_voltage ++ bytes_i16 d.battery_charge_current_limit ++
    bytes_i16 d.battery_discharge_current_limit ++ bytes_u16 d.battery_discharge_voltage

/-- Size of `data351` in bytes (`sizeof(data351)`). -/
def sizeof_data351 : Nat := 8

/-- The counter `number_of_active_errors` of `pylon_message_351` when the
struct is filled (source lines 26 to 44). -/
def number_of_active_errors (s : Snapshot) : Nat :=
  let n0 : Nat := 0
  let n1 :=
    if s._controller_state = ControllerState.Running then
      let a := to_uint8 (n0 + one_if (s.rules.rule_outcome Rule.BankOverVoltage))
      let b := to_uint8 (a + one_if (s.rules.rule_outcome Rule.BankUnderVoltage))
      if s.rules.moduleHasExternalTempSensor then
        let c := to_uint8 (b + one_if (s.rules.rule_outcome Rule.ModuleOverTemperatureExternal))
        to_uint8 (c + one_if (s.rules.rule_outcome Rule.ModuleUnderTemperatureExternal))
      else b
    else n0
  to_uint8 (n1 + one_if (bool_bitor (s.rules.rule_outcome Rule.BMSError)
    (s.rules.rule_outcome Rule.EmergencyStop)))

/-- The struct after the three-way policy and the discharge voltage assignment
(source lines 58 to 82). -/
def policy_351 (s : Snapshot) : data351 :=
  let cvcd : Nat × Int × Int :=
    if s._controller_state ≠ ControllerState.Running ∨ number_of_active_errors s > 0 then
      (0, 0, 0)
    else if s.rules.numberOfBalancingModules > 0 ∧ s.mysettings.stopchargebalance = true then
      (0, 0, to_int16 s.mysettings.dischargecurrent)
    else
      (to_uint16 s.mysettings.chargevolt, to_int16 s.mysettings.chargecurrent,
        to_int16 s.mysettings.dischargecurrent)
  { battery_charge_voltage := cvcd.1
    battery_charge_current_limit := cvcd.2.1
    battery_discharge_current_limit := cvcd.2.2
    battery_discharge_voltage := to_uint16 s.mysettings.dischargevolt }

/-- The temperature check of source lines 85 to 103, applied to the struct. -/
def temperature_check_351 (s : Snapshot) (d : data351) : data351 :=
  if s._controller_state = ControllerState.Running ∧ s.rules.moduleHasExternalTempSensor = true then
    let d1 :=
      if bool_bitor (decide (s.rules.lowestExternalTemp < s.mysettings.dischargetemplow))
          (decide (s.rules.highestExternalTemp > s.mysettings.dischargetemphigh)) then
        { d with battery_discharge_current_limit := 0 }
      else d
    if bool_bitor (decide (s.rules.lowestExternalTemp < s.mysettings.chargetemplow))
        (decide (s.rules.highestExternalTemp > s.mysettings.chargetemphigh)) then
      { d1 with battery_charge_voltage := 0, battery_charge_current_limit := 0 }
    else d1
  else d

/-- The struct `data` of `pylon_message_351` when it is sent. -/
def fill_data351 (s : Snapshot) : data351 :=
  temperature_check_351 s (policy_351 s)

/-- The builder `pylon_message_351`. -/
def pylon_message_351 (s : Snapshot) (bus : CanBus) : CanBus :=
  send_canbus_message 0x351 (fill_data351 s).bytes sizeof_data351 bus

/-! ## 0x355: state of charge and state of health -/

/-- The local struct `data355` of `pylon_message_355`. -/
structure data355 where
  stateofchargevalue : Nat
  stateofhealthvalue : Nat
  deriving DecidableEq, Repr

/-- The bytes of a `data355` in memory. -/
def data355.bytes (d : data355) : List Nat :=
  bytes_u16 d.stateofchargevalue ++ bytes_u16 d.stateofhealthvalue

/-- Size of `data355` in bytes (`sizeof(data355)`). -/
def sizeof_data355 : Nat := 4

/-- The condition guarding the body of `pylon_message_355` (source line 116). -/
def guard_355 (s : Snapshot) : Bool :=
  decide (s._controller_state = ControllerState.Running) && s.mysettings.currentMonitoringEnabled &&
    s.currentMonitor.validReadings &&
    decide (s.mysettings.currentMonitoringDevice = CurrentMonitorDevice.DIYBMS_CURRENT_MON)

/-- The builder `pylon_message_355`. -/
def pylon_message_355 (s : Snapshot) (bus : CanBus) : CanBus :=
  if guard_355 s then
    let soc0 := to_uint16 s.currentMonitor.stateofcharge
    let soc := if s.mysettings.socoverride then 85 else soc0
    let data : data355 := { stateofchargevalue := soc, stateofhealthvalue := 100 }
    send_canbus_message 0x355 data.bytes sizeof_data355 bus
  else bus

/-! ## 0x35C: charge and discharge enable flags -/

/-- The local struct `data35c` of `pylon_message_35c`. -/
structure data35c where
  byte0 : Nat
  byte1 : Nat
  deriving DecidableEq, Repr

/-- The bytes of a `data35c` in memory. -/
def data35c.bytes (d : data35c) : List Nat := [d.byte0, d.byte1]

/-- Size of `data35c` in bytes (`sizeof(data35c)`). -/
def sizeof_data35c : Nat := 2

/-- The struct `data` of `pylon_message_35c` when it is sent (source lines 214 to 245). -/
def fill_data35c (s : Snapshot) : data35c :=
  let d0 : data35c := { byte0 := 0b11000000, byte1 := 0 }
  let d1 :=
    if s._controller_state = ControllerState.Running ∧ s.rules.moduleHasExternalTempSensor = true then
      let e :=
        if bool_bitor (decide (s.rules.lowestExternalTemp < s.mysettings.dischargetemplow))
            (decide (s.rules.highestExternalTemp > s.mysettings.dischargetemphigh)) then
          { d0 with byte0 := d0.byte0 &&& 0b10111111 }
        else d0
      if bool_bitor (decide (s.rules.lowestExternalTemp < s.mysettings.chargetemplow))
          (decide (s.rules.highestExternalTemp > s.mysettings.chargetemphigh)) then
        { e with byte0 := e.byte0 &&& 0b01111111 }
      else e
    else d0
  if s._controller_state ≠ ControllerState.Running then { d1 with byte0 := 0 } else d1

/-- The builder `pylon_message_35c`. -/
def pylon_message_35c (s : Snapshot) (bus : CanBus) : CanBus :=
  send_canbus_message 0x35c (fill_data35c s).bytes sizeof_data35c bus

/-! ## 0x35E: manufacturer name -/

/-- The array `const char pylon[]` of `pylon_message_35e`: the eight characters
of the string literal followed by its terminating NUL. -/
def pylon : List Nat := [0x50, 0x59, 0x4c, 0x4f, 0x4e, 0x20, 0x20, 0x20, 0x00]

/-- The builder `pylon_message_35e`; it reads none of the globals. -/
def pylon_message_35e (_s : Snapshot) (bus : CanBus) : CanBus :=
  send_canbus_message 0x35e pylon (pylon.length - 1) bus

/-! ## 0x359: protection and alarm flags -/

/-- The local struct `data359` of `pylon_message_359`. -/
structure data359 where
  byte0 : Nat
  byte1 : Nat
  byte2 : Nat
  byte3 : Nat
  byte4 : Nat
  byte5 : Nat
  byte6 : Nat
  byte7 : Nat
  deriving DecidableEq, Repr

/-- The bytes of a `data359` in memory. -/
def data359.bytes (d : data359) : List Nat :=
  [d.byte0, d.byte1, d.byte2, d.byte3, d.byte4, d.byte5, d.byte6, d.byte7]

/-- Size of `data359` in bytes (`sizeof(data359)`). -/
def sizeof_data359 : Nat := 8

/-- The C++ expression `c ? mask : 0`. -/
def mask_if (c : Bool) (mask : Nat) : Nat := if c then mask else 0

/-- The C function `round`: the nearest integer, halves away from zero. -/
def round_half_away (q : ℚ) : Int :=
  if 0 ≤ q then Rat.floor (q + 1 / 2) else -Rat.floor (-q + 1 / 2)

/-- Conversion of an integral value to `uint8_t`: the value modulo `2^8`. -/
def int_to_uint8 (v : Int) : Nat := (v % 256).toNat

/-- The expression `(uint8_t)round(mysettings.nominalbatcap / 74.0)`.  The
quotient is taken exactly: the double quotient of an integer capacity by 74.0
is a half-integer only when the exact quotient is one (and then it is exact),
so `round` gives the same integer on both.  Beyond 18906 Ah the rounded value
no longer fits a byte, C++ leaves the conversion undefined and the low byte is
taken here. -/
def rounded_packs (nominalbatcap : Nat) : Nat :=
  int_to_uint8 (round_half_away ((nominalbatcap : ℚ) / 74))

/-- The struct `data` of `pylon_message_359` when it is sent (source lines 151
to 200). -/
def fill_data359 (s : Snapshot) : data359 :=
  let d0 : data359 :=
    { byte0 := 0, byte1 := 0, byte2 := 0, byte3 := 0, byte4 := 0, byte5 := 0, byte6 := 0,
      byte7 := 0 }
  let d1 :=
    if s._controller_state = ControllerState.Running then
      let a := { d0 with byte0 := to_uint8 (d0.byte0 |||
        mask_if (bool_bitor (s.rules.rule_outcome Rule.BankOverVoltage)
          (s.rules.rule_outcome Rule.CurrentMonitorOverVoltage)) 0b00000010) }
      let b := { a with byte0 := to_uint8 (a.byte0 |||
        mask_if (bool_bitor (s.rules.rule_outcome Rule.BankUnderVoltage)
          (s.rules.rule_outcome Rule.CurrentMonitorUnderVoltage)) 0b00000100) }
      let c :=
        if s.rules.moduleHasExternalTempSensor then
          { b with byte0 := to_uint8 (b.byte0 |||
            mask_if (s.rules.rule_outcome Rule.ModuleOverTemperatureExternal) 0b00001000) }
        else b
      if s.rules.moduleHasExternalTempSensor then
        { c with byte0 := to_uint8 (c.byte0 |||
          mask_if (s.rules.rule_outcome Rule.ModuleUnderTemperatureExternal) 0b00010000) }
      else c
    else d0
  let d2 := { d1 with byte3 := to_uint8 (d1.byte3 |||
    mask_if (bool_bitor (s.rules.rule_outcome Rule.BMSError)
      (s.rules.rule_outcome Rule.EmergencyStop)) 0b00001000) }
  let d3 := { d2 with byte3 := to_uint8 (d2.byte3 |||
    mask_if (decide (s._controller_state ≠ ControllerState.Running)) 0b00001000) }
  let d4 :=
    if s.mysettings.currentMonitoringEnabled && s.currentMonitor.validReadings then
      { d3 with byte4 := min 1 (rounded_packs s.mysettings.nominalbatcap) }
    else
      { d3 with byte4 := 1 }
  { d4 with byte5 := 0x50, byte6 := 0x4e }

/-- The builder `pylon_message_359`. -/
def pylon_message_359 (s : Snapshot) (bus : CanBus) : CanBus :=
  send_canbus_message 0x359 (fill_data359 s).bytes sizeof_data359 bus

/-! ## 0x356: voltage, current and temperature -/

/-- The local struct `data356` of `pylon_message_356`. -/
structure data356 where
  voltage : Int
  current : Int
  temperature : Int
  deriving DecidableEq, Repr

/-- The bytes of a `data356` in memory. -/
def data356.bytes (d : data356) : List Nat :=
  bytes_i16 d.voltage ++ bytes_i16 d.current ++ bytes_i16 d.temperature

/-- Size of `data356` in bytes (`sizeof(data356)`). -/
def sizeof_data356 : Nat := 6

/-- The struct `data` of `pylon_message_356` when it is sent (source lines 268
to 297). -/
def fill_data356 (s : Snapshot) : data356 :=
  let voltage :=
    if s.mysettings.currentMonitoringEnabled && s.currentMonitor.validReadings then
      to_int16 s.currentMonitor.modbus.voltage_times_100
    else
      to_int16 ((s.rules.highestPackVoltage / 10 : Nat) : Int)
  let current0 : Int := 0
  let current :=
    if s.mysettings.currentMonitoringEnabled && s.currentMonitor.validReadings then
      to_int16 s.currentMonitor.modbus.current_times_10
    else current0
  let temperature :=
    if s.rules.moduleHasExternalTempSensor then
      to_int16 (to_int16 s.rules.highestExternalTemp * to_int16 10)
    else 0
  { voltage := voltage, current := current, temperature := temperature }

/-- The builder `pylon_message_356`. -/
def pylon_message_356 (s : Snapshot) (bus : CanBus) : CanBus :=
  send_canbus_message 0x356 (fill_data356 s).bytes sizeof_data356 bus

/-! ## Reading a payload -/

/-- The little-endian 16-bit encoding of an integer: its low byte, then the
next byte. -/
def le16 (v : Int) : List Nat := [(v % 256).toNat, (v / 256 % 256).toNat]

/-- The 16-bit field number `k` of a payload (bytes `2k` and `2k+1`, low byte
first), read as an unsigned number. -/
def field16 (payload : List Nat) (k : Nat) : Nat :=
  payload.getD (2 * k) 0 + 256 * payload.getD (2 * k + 1) 0

/-- A snapshot with its rule outcomes replaced and everything else kept. -/
def with_rule_outcome (s : Snapshot) (outcome : Rule → Bool) : Snapshot :=
  { s with rules := { s.rules with rule_outcome := outcome } }

/-- The external temperature range leaves the discharge band. -/
def outside_discharge_band (s : Snapshot) : Prop :=
  s.rules.lowestExternalTemp < s.mysettings.dischargetemplow ∨
    s.rules.highestExternalTemp > s.mysettings.dischargetemphigh

/-- The external temperature range leaves the charge band. -/
def outside_charge_band (s : Snapshot) : Prop :=
  s.rules.lowestExternalTemp < s.mysettings.chargetemplow ∨
    s.rules.highestExternalTemp > s.mysettings.chargetemphigh

instance (s : Snapshot) : Decidable (outside_discharge_band s) := by
  unfold outside_discharge_band; infer_instance

instance (s : Snapshot) : Decidable (outside_charge_band s) := by
  unfold outside_charge_band; infer_instance

/-! ## Sample snapshots and predicates used in the statements -/

/-- Rule outcomes with no rule violated. -/
def no_rule_violated : Rule → Bool := fun _ => false

/-- Settings with the limits 532 / 3700 / 3700 / 460 of the header comment of
`pylon_message_351`, a charge band of 0 to 45 degrees and a discharge band of
-10 to 55 degrees. -/
def sample_settings : Settings :=
  { chargevolt := 532, chargecurrent := 3700, dischargecurrent := 3700, dischargevolt := 460,
    chargetemplow := 0, chargetemphigh := 45, dischargetemplow := -10, dischargetemphigh := 55,
    stopchargebalance := false, socoverride := false, currentMonitoringEnabled := false,
    currentMonitoringDevice := CurrentMonitorDevice.DIYBMS_CURRENT_MON, nominalbatcap := 148 }

/-- Rules state with nothing violated, nothing balancing and no external sensor. -/
def sample_rules : Rules :=
  { rule_outcome := no_rule_violated, moduleHasExternalTempSensor := false,
    numberOfBalancingModules := 0, lowestExternalTemp := 20, highestExternalTemp := 25,
    highestPackVoltage := 5234 }

/-- Monitor readings whose products convert to 5230 (voltage times 100) and
-125 (current times 10). -/
def sample_modbus : Modbus := { voltage_times_100 := 5230, current_times_10 := -125 }

/-- A current monitor without valid readings. -/
def sample_monitor : CurrentMonitor :=
  { modbus := sample_modbus, validReadings := false, stateofcharge := 26 }

/-- A controller that is still starting up. -/
def starting_snapshot : Snapshot :=
  { _controller_state := ControllerState.Initializing, rules := sample_rules,
    mysettings := sample_settings, currentMonitor := sample_monitor }

/-- A running controller with nothing violated and no external sensor. -/
def running_snapshot : Snapshot :=
  { _controller_state := ControllerState.Running, rules := sample_rules,
    mysettings := sample_settings, currentMonitor := sample_monitor }

/-- A violation that `pylon_message_351` counts while the controller runs. -/
def qualifying_violation (s : Snapshot) : Prop :=
  s.rules.rule_outcome Rule.BankOverVoltage = true ∨
  s.rules.rule_outcome Rule.BankUnderVoltage = true ∨
  s.rules.rule_outcome Rule.BMSError = true ∨
  s.rules.rule_outcome Rule.EmergencyStop = true ∨
  (s.rules.moduleHasExternalTempSensor = true ∧
    (s.rules.rule_outcome Rule.ModuleOverTemperatureExternal = true ∨
      s.rules.rule_outcome Rule.ModuleUnderTemperatureExternal = true))

/-- The three limit fields of `d'` are each 0 or the same field of `d`. -/
def limits_zero_or_same (d' d : data351) : Prop :=
  (d'.battery_charge_voltage = 0 ∨ d'.battery_charge_voltage = d.battery_charge_voltage) ∧
  (d'.battery_charge_current_limit = 0 ∨
    d'.battery_charge_current_limit = d.battery_charge_current_limit) ∧
  (d'.battery_discharge_current_limit = 0 ∨
    d'.battery_discharge_current_limit = d.battery_discharge_current_limit)

/-- The three limit fields of `d` are 0. -/
def limits_zero (d : data351) : Prop :=
  d.battery_charge_voltage = 0 ∧ d.battery_charge_current_limit = 0 ∧
    d.battery_discharge_current_limit = 0

/-- Rule outcomes with only BankOverVoltage violated. -/
def only_bank_over_voltage : Rule → Bool := fun r => decide (r = Rule.BankOverVoltage)

/-- A running controller with an external sensor whose temperature range
(-20 to 60 degrees) leaves both configured bands. -/
def out_of_band_snapshot : Snapshot :=
  { running_snapshot with
    rules := { sample_rules with moduleHasExternalTempSensor := true,
                                 lowestExternalTemp := -20, highestExternalTemp := 60 } }

/-- A running controller with an external sensor whose temperature range
(20 to 25 degrees) lies inside both configured bands. -/
def in_band_snapshot : Snapshot :=
  { running_snapshot with rules := { sample_rules with moduleHasExternalTempSensor := true } }

/-- The settings of the 0x351 scenario: limits 5320 / 370 / 370 / 460. -/
def scenario_settings : Settings :=
  { sample_settings with chargevolt := 5320, chargecurrent := 370, dischargecurrent := 370,
                         dischargevolt := 460 }

/-- The snapshot of the 0x351 scenario: Running, nothing violated, nothing
balancing, current monitoring disabled, no external sensor. -/
def scenario_snapshot : Snapshot := { running_snapshot with mysettings := scenario_settings }

/-- A running controller that is balancing two modules and must not charge
meanwhile. -/
def balancing_snapshot : Snapshot :=
  { running_snapshot with
    rules := { sample_rules with numberOfBalancingModules := 2 },
    mysettings := { sample_settings with stopchargebalance := true } }

/-- A running controller with a valid DIYBMS current monitor reporting 26 %
and the SOC override set. -/
def monitored_snapshot : Snapshot :=
  { running_snapshot with
    mysettings := { sample_settings with currentMonitoringEnabled := true, socoverride := true },
    currentMonitor := { modbus := sample_modbus, validReadings := true, stateofcharge := 26 } }

/-- The running controller with a valid current monitor and a nominal capacity
of 148 Ah (two packs of 74 Ah). -/
def two_pack_snapshot : Snapshot := monitored_snapshot

/-- The running controller with a valid current monitor and the given nominal
capacity. -/
def capacity_snapshot (nominalbatcap : Nat) : Snapshot :=
  { monitored_snapshot with
    mysettings := { monitored_snapshot.mysettings with nominalbatcap := nominalbatcap } }

/-- A running controller without external sensor whose bank is over voltage. -/
def over_voltage_snapshot : Snapshot := with_rule_outcome running_snapshot only_bank_over_voltage

/-- Rule outcomes with every rule violated. -/
def all_rules_violated : Rule → Bool := fun _ => true

/-! ## Lemmas and theorems -/

theorem bool_bitor_eq_or (a b : Bool) : bool_bitor a b = (a || b) := by
  cases a <;> cases b <;> rfl

theorem bytes_u16_to_uint16 (v : Int) : bytes_u16 (to_uint16 v) = le16 v := by
  unfold bytes_u16 to_uint16 le16
  congr 1
  · omega
  · congr 1
    omega

theorem bytes_i16_to_int16 (v : Int) : bytes_i16 (to_int16 v) = le16 v := by
  unfold bytes_i16 to_int16
  have h : ((v + 32768) % 65536 - 32768) % 65536 = v % 65536 := by omega
  rw [h]
  exact bytes_u16_to_uint16 v

theorem bytes_u16_zero : bytes_u16 0 = [0, 0] := rfl

theorem bytes_i16_zero : bytes_i16 0 = [0, 0] := rfl

theorem pylon_message_351_sends (s : Snapshot) (bus : CanBus) :
    pylon_message_351 s bus =
      bus ++ [{ identifier := 0x351, length := 8, data := (fill_data351 s).bytes }] := by
  simp [pylon_message_351, send_canbus_message, sizeof_data351, data351.bytes, bytes_u16,
    bytes_i16]

theorem policy_351_discharge_voltage (s : Snapshot) :
    (policy_351 s).battery_discharge_voltage = to_uint16 s.mysettings.dischargevolt := rfl

theorem temperature_check_351_discharge_voltage (s : Snapshot) (d : data351) :
    (temperature_check_351 s d).battery_discharge_voltage = d.battery_discharge_voltage := by
  unfold temperature_check_351
  split_ifs <;> rfl

theorem fill_data351_discharge_voltage (s : Snapshot) :
    (fill_data351 s).battery_discharge_voltage = to_uint16 s.mysettings.dischargevolt := by
  unfold fill_data351
  rw [temperature_check_351_discharge_voltage, policy_351_discharge_voltage]

theorem fill_data351_not_running (s : Snapshot)
    (h : s._controller_state ≠ ControllerState.Running) :
    fill_data351 s =
      { battery_charge_voltage := 0, battery_charge_current_limit := 0,
        battery_discharge_current_limit := 0,
        battery_discharge_voltage := to_uint16 s.mysettings.dischargevolt } := by
  simp [fill_data351, temperature_check_351, policy_351, h]

theorem pylon_message_35c_sends (s : Snapshot) (bus : CanBus) :
    pylon_message_35c s bus =
      bus ++ [{ identifier := 0x35c, length := 2, data := (fill_data35c s).bytes }] := by
  simp [pylon_message_35c, send_canbus_message, sizeof_data35c, data35c.bytes]

/-- C1: when the controller state is not Running, `pylon_message_351` sends
identifier 0x351 with 8 bytes: six zero bytes (charge voltage, charge current
limit and discharge current limit all 0) followed by the little-endian
configured discharge voltage, whatever the rest of the snapshot is. -/
theorem failsafe_351_when_not_running (s : Snapshot) (bus : CanBus)
    (h : s._controller_state ≠ ControllerState.Running) :
    pylon_message_351 s bus =
      bus ++ [{ identifier := 0x351, length := 8,
                data := [0, 0, 0, 0, 0, 0] ++ le16 s.mysettings.dischargevolt }] := by
  rw [pylon_message_351_sends, fill_data351_not_running s h]
  simp [data351.bytes, bytes_u16_zero, bytes_i16_zero, bytes_u16_to_uint16]

theorem failsafe_351_when_not_running_witness :
    starting_snapshot._controller_state ≠ ControllerState.Running ∧
      pylon_message_351 starting_snapshot [] =
        [{ identifier := 0x351, length := 8, data := [0, 0, 0, 0, 0, 0, 0xCC, 0x01] }] :=
  ⟨by decide, failsafe_351_when_not_running starting_snapshot [] (by decide)⟩

/-- C2: when the controller state is not Running, `pylon_message_35c` sends
identifier 0x35C with the 2-byte payload 00 00, whatever the external sensor,
the temperatures and the configured bands are. -/
theorem failsafe_35c_when_not_running (s : Snapshot) (bus : CanBus)
    (h : s._controller_state ≠ ControllerState.Running) :
    pylon_message_35c s bus = bus ++ [{ identifier := 0x35c, length := 2, data := [0, 0] }] := by
  rw [pylon_message_35c_sends]
  simp [fill_data35c, data35c.bytes, h]

theorem failsafe_35c_when_not_running_witness :
    starting_snapshot._controller_state ≠ ControllerState.Running ∧
      pylon_message_35c starting_snapshot [] =
        [{ identifier := 0x35c, length := 2, data := [0, 0] }] :=
  ⟨by decide, failsafe_35c_when_not_running starting_snapshot [] (by decide)⟩

theorem number_of_active_errors_pos_iff (s : Snapshot)
    (h : s._controller_state = ControllerState.Running) :
    0 < number_of_active_errors s ↔ qualifying_violation s := by
  unfold number_of_active_errors qualifying_violation
  simp only [h, if_true]
  generalize s.rules.rule_outcome Rule.BankOverVoltage = a
  generalize s.rules.rule_outcome Rule.BankUnderVoltage = b
  generalize s.rules.rule_outcome Rule.BMSError = c
  generalize s.rules.rule_outcome Rule.EmergencyStop = d
  generalize s.rules.rule_outcome Rule.ModuleOverTemperatureExternal = e
  generalize s.rules.rule_outcome Rule.ModuleUnderTemperatureExternal = f
  generalize s.rules.moduleHasExternalTempSensor = g
  cases a <;> cases b <;> cases c <;> cases d <;> cases e <;> cases f <;> cases g <;> decide

theorem number_of_active_errors_not_running (s : Snapshot)
    (h : s._controller_state ≠ ControllerState.Running) :
    0 < number_of_active_errors s ↔
      (s.rules.rule_outcome Rule.BMSError = true ∨ s.rules.rule_outcome Rule.EmergencyStop = true) := by
  unfold number_of_active_errors
  simp only [h, if_false]
  generalize s.rules.rule_outcome Rule.BMSError = c
  generalize s.rules.rule_outcome Rule.EmergencyStop = d
  cases c <;> cases d <;> decide

theorem qualifying_violation_mono (s : Snapshot) (outcome : Rule → Bool)
    (hmore : ∀ r, s.rules.rule_outcome r = true → outcome r = true)
    (h : qualifying_violation s) : qualifying_violation (with_rule_outcome s outcome) := by
  unfold qualifying_violation at *
  simp only [with_rule_outcome]
  rcases h with h | h | h | h | ⟨hs, h | h⟩
  · exact Or.inl (hmore _ h)
  · exact Or.inr (Or.inl (hmore _ h))
  · exact Or.inr (Or.inr (Or.inl (hmore _ h)))
  · exact Or.inr (Or.inr (Or.inr (Or.inl (hmore _ h))))
  · exact Or.inr (Or.inr (Or.inr (Or.inr ⟨hs, Or.inl (hmore _ h)⟩)))
  · exact Or.inr (Or.inr (Or.inr (Or.inr ⟨hs, Or.inr (hmore _ h)⟩)))

theorem temperature_check_351_with_rule_outcome (s : Snapshot) (outcome : Rule → Bool)
    (d : data351) :
    temperature_check_351 (with_rule_outcome s outcome) d = temperature_check_351 s d := rfl

theorem temperature_check_351_zero_or_same (s : Snapshot) (d' d : data351)
    (h : limits_zero_or_same d' d) :
    limits_zero_or_same (temperature_check_351 s d') (temperature_check_351 s d) := by
  unfold limits_zero_or_same at *
  unfold temperature_check_351
  split_ifs <;> tauto

theorem temperature_check_351_zero (s : Snapshot) (d : data351) (h : limits_zero d) :
    limits_zero (temperature_check_351 s d) := by
  unfold limits_zero at *
  unfold temperature_check_351
  split_ifs <;> tauto

theorem policy_351_zero (s : Snapshot)
    (h : s._controller_state ≠ ControllerState.Running ∨ 0 < number_of_active_errors s) :
    limits_zero (policy_351 s) := by
  unfold limits_zero policy_351
  simp [h]

theorem policy_351_with_rule_outcome (s : Snapshot) (outcome : Rule → Bool)
    (h1 : ¬ 0 < number_of_active_errors s)
    (h2 : ¬ 0 < number_of_active_errors (with_rule_outcome s outcome)) :
    policy_351 (with_rule_outcome s outcome) = policy_351 s := by
  unfold policy_351
  simp only [gt_iff_lt, h1, h2]
  rfl

theorem fill_data351_zero_or_same (s : Snapshot) (outcome : Rule → Bool)
    (hmore : ∀ r, s.rules.rule_outcome r = true → outcome r = true) :
    limits_zero_or_same (fill_data351 (with_rule_outcome s outcome)) (fill_data351 s) := by
  unfold fill_data351
  rw [temperature_check_351_with_rule_outcome]
  apply temperature_check_351_zero_or_same
  by_cases hz : (with_rule_outcome s outcome)._controller_state ≠ ControllerState.Running ∨
      0 < number_of_active_errors (with_rule_outcome s outcome)
  · have := policy_351_zero _ hz
    unfold limits_zero at this
    unfold limits_zero_or_same
    tauto
  · rw [not_or, not_not] at hz
    obtain ⟨hrun, herr⟩ := hz
    have hrun' : s._controller_state = ControllerState.Running := hrun
    have h1 : ¬ 0 < number_of_active_errors s := by
      intro hpos
      apply herr
      rw [number_of_active_errors_pos_iff _ hrun]
      exact qualifying_violation_mono s outcome hmore
        ((number_of_active_errors_pos_iff s hrun').1 hpos)
    rw [policy_351_with_rule_outcome s outcome h1 herr]
    unfold limits_zero_or_same
    tauto

theorem field16_bytes_351_0 (d : data351) :
    field16 d.bytes 0 = d.battery_charge_voltage % 256 + 256 * (d.battery_charge_voltage / 256 % 256) := rfl

theorem field16_bytes_351_1 (d : data351) :
    field16 d.bytes 1 =
      (d.battery_charge_current_limit % 65536).toNat % 256 +
        256 * ((d.battery_charge_current_limit % 65536).toNat / 256 % 256) := rfl

theorem field16_bytes_351_2 (d : data351) :
    field16 d.bytes 2 =
      (d.battery_discharge_current_limit % 65536).toNat % 256 +
        256 * ((d.battery_discharge_current_limit % 65536).toNat / 256 % 256) := rfl

theorem field16_zero_of_limits_zero (d : data351) (h : limits_zero d) (k : Nat) (hk : k < 3) :
    field16 d.bytes k = 0 := by
  obtain ⟨h0, h1, h2⟩ := h
  interval_cases k
  · rw [field16_bytes_351_0, h0]
  · rw [field16_bytes_351_1, h1]; rfl
  · rw [field16_bytes_351_2, h2]; rfl

theorem field16_zero_or_same (d' d : data351) (h : limits_zero_or_same d' d) (k : Nat)
    (hk : k < 3) : field16 d'.bytes k = 0 ∨ field16 d'.bytes k = field16 d.bytes k := by
  obtain ⟨h0, h1, h2⟩ := h
  interval_cases k
  · rcases h0 with h | h
    · left; rw [field16_bytes_351_0, h]
    · right; rw [field16_bytes_351_0, field16_bytes_351_0, h]
  · rcases h1 with h | h
    · left; rw [field16_bytes_351_1, h]; rfl
    · right; rw [field16_bytes_351_1, field16_bytes_351_1, h]
  · rcases h2 with h | h
    · left; rw [field16_bytes_351_2, h]; rfl
    · right; rw [field16_bytes_351_2, field16_bytes_351_2, h]

theorem fill_data351_zero_of_violation (s : Snapshot)
    (hrun : s._controller_state = ControllerState.Running) (hq : qualifying_violation s) :
    limits_zero (fill_data351 s) := by
  unfold fill_data351
  apply temperature_check_351_zero
  apply policy_351_zero
  exact Or.inr ((number_of_active_errors_pos_iff s hrun).2 hq)

theorem data351_bytes_lt (d : data351) : ∀ b ∈ d.bytes, b < 256 := by
  intro b hb
  unfold data351.bytes bytes_i16 bytes_u16 at hb
  simp only [List.cons_append, List.nil_append, List.mem_cons, List.mem_singleton,
    List.not_mem_nil, or_false] at hb
  rcases hb with h | h | h | h | h | h | h | h <;> subst h <;> omega

/-- C3: when some rule outcomes that were false become true and nothing else in
the snapshot changes, both calls send a 0x351 frame of 8 bytes and each of the
three limit fields of the new frame (charge voltage, charge current limit,
discharge current limit) is 0 or unchanged; and in a Running snapshot with a
qualifying violation (BankOverVoltage, BankUnderVoltage, BMSError,
EmergencyStop, or an external over/under temperature rule with an external
sensor present) all three fields are 0. -/
theorem limits_351_monotone_in_violations (s : Snapshot) (outcome : Rule → Bool) (bus : CanBus)
    (hmore : ∀ r, s.rules.rule_outcome r = true → outcome r = true) :
    ∃ f f', pylon_message_351 s bus = bus ++ [f] ∧
      pylon_message_351 (with_rule_outcome s outcome) bus = bus ++ [f'] ∧
      f.identifier = 0x351 ∧ f.length = 8 ∧ f.data.length = 8 ∧ (∀ b ∈ f.data, b < 256) ∧
      f'.identifier = 0x351 ∧ f'.length = 8 ∧ f'.data.length = 8 ∧ (∀ b ∈ f'.data, b < 256) ∧
      (∀ k, k < 3 → field16 f'.data k = 0 ∨ field16 f'.data k = field16 f.data k) ∧
      (s._controller_state = ControllerState.Running → qualifying_violation s →
        ∀ k, k < 3 → field16 f.data k = 0) :=
  ⟨_, _, pylon_message_351_sends s bus, pylon_message_351_sends _ bus,
    rfl, rfl, rfl, data351_bytes_lt _, rfl, rfl, rfl, data351_bytes_lt _,
    fun k hk => field16_zero_or_same _ _ (fill_data351_zero_or_same s outcome hmore) k hk,
    fun hrun hq k hk => field16_zero_of_limits_zero _ (fill_data351_zero_of_violation s hrun hq) k hk⟩

theorem limits_351_monotone_in_violations_witness :
    ((∀ r, running_snapshot.rules.rule_outcome r = true → only_bank_over_voltage r = true) ∧
      pylon_message_351 running_snapshot [] =
        [{ identifier := 0x351, length := 8,
           data := [0x14, 0x02, 0x74, 0x0E, 0x74, 0x0E, 0xCC, 0x01] }] ∧
      pylon_message_351 (with_rule_outcome running_snapshot only_bank_over_voltage) [] =
        [{ identifier := 0x351, length := 8,
           data := [0x00, 0x00, 0x00, 0x00, 0x00, 0x00, 0xCC, 0x01] }] ∧
      ∃ f f', pylon_message_351 running_snapshot [] = [] ++ [f] ∧
        pylon_message_351 (with_rule_outcome running_snapshot only_bank_over_voltage) [] =
          [] ++ [f'] ∧
        f.data.length = 8 ∧ f'.data.length = 8 ∧
        (∀ k, k < 3 → field16 f'.data k = 0 ∨ field16 f'.data k = field16 f.data k)) ∧
    ((∀ r, over_voltage_snapshot.rules.rule_outcome r = true → all_rules_violated r = true) ∧
      over_voltage_snapshot._controller_state = ControllerState.Running ∧
      qualifying_violation over_voltage_snapshot ∧
      pylon_message_351 over_voltage_snapshot [] =
        [{ identifier := 0x351, length := 8,
           data := [0x00, 0x00, 0x00, 0x00, 0x00, 0x00, 0xCC, 0x01] }] ∧
      ∃ f f', pylon_message_351 over_voltage_snapshot [] = [] ++ [f] ∧
        pylon_message_351 (with_rule_outcome over_voltage_snapshot all_rules_violated) [] =
          [] ++ [f'] ∧
        f.data.length = 8 ∧ f'.data.length = 8 ∧
        (∀ k, k < 3 → field16 f'.data k = 0 ∨ field16 f'.data k = field16 f.data k) ∧
        (∀ k, k < 3 → field16 f.data k = 0)) := by
  refine ⟨⟨fun _ h => (Bool.false_ne_true h).elim, by decide, by decide, ?_⟩,
    ⟨fun _ _ => rfl, rfl, Or.inl rfl, by decide, ?_⟩⟩
  · obtain ⟨f, f', h1, h2, _, _, hl, _, _, _, hl', _, hmono, _⟩ :=
      limits_351_monotone_in_violations running_snapshot only_bank_over_voltage []
        (fun _ h => (Bool.false_ne_true h).elim)
    exact ⟨f, f', h1, h2, hl, hl', hmono⟩
  · obtain ⟨f, f', h1, h2, _, _, hl, _, _, _, hl', _, hmono, hzero⟩ :=
      limits_351_monotone_in_violations over_voltage_snapshot all_rules_violated []
        (fun _ _ => rfl)
    exact ⟨f, f', h1, h2, hl, hl', hmono, hzero rfl (Or.inl rfl)⟩

theorem bool_bitor_discharge_band (s : Snapshot) :
    bool_bitor (decide (s.rules.lowestExternalTemp < s.mysettings.dischargetemplow))
      (decide (s.rules.highestExternalTemp > s.mysettings.dischargetemphigh)) = true ↔
    outside_discharge_band s := by
  rw [bool_bitor_eq_or]
  simp [outside_discharge_band]

theorem bool_bitor_charge_band (s : Snapshot) :
    bool_bitor (decide (s.rules.lowestExternalTemp < s.mysettings.chargetemplow))
      (decide (s.rules.highestExternalTemp > s.mysettings.chargetemphigh)) = true ↔
    outside_charge_band s := by
  rw [bool_bitor_eq_or]
  simp [outside_charge_band]

theorem temperature_check_351_discharge (s : Snapshot) (d : data351)
    (hrun : s._controller_state = ControllerState.Running)
    (hsens : s.rules.moduleHasExternalTempSensor = true) (h : outside_discharge_band s) :
    (temperature_check_351 s d).battery_discharge_current_limit = 0 := by
  unfold temperature_check_351
  rw [if_pos ⟨hrun, hsens⟩]
  simp only [(bool_bitor_discharge_band s).2 h, if_true]
  split_ifs <;> rfl

theorem temperature_check_351_charge (s : Snapshot) (d : data351)
    (hrun : s._controller_state = ControllerState.Running)
    (hsens : s.rules.moduleHasExternalTempSensor = true) (h : outside_charge_band s) :
    (temperature_check_351 s d).battery_charge_voltage = 0 ∧
      (temperature_check_351 s d).battery_charge_current_limit = 0 := by
  unfold temperature_check_351
  rw [if_pos ⟨hrun, hsens⟩]
  simp [(bool_bitor_charge_band s).2 h]

theorem temperature_check_351_inside (s : Snapshot) (d : data351)
    (h : s.rules.moduleHasExternalTempSensor = false ∨
      (¬ outside_discharge_band s ∧ ¬ outside_charge_band s)) :
    temperature_check_351 s d = d := by
  unfold temperature_check_351
  rcases h with h | ⟨hd, hc⟩
  · simp [h]
  · have hd' := (not_congr (bool_bitor_discharge_band s)).2 hd
    have hc' := (not_congr (bool_bitor_charge_band s)).2 hc
    simp [hd', hc']

/-- C4: in a Running snapshot with an external sensor, `pylon_message_351`
sends a 0x351 frame of 8 bytes in which a temperature range outside the
discharge band makes the discharge current limit zero, and a range outside the
charge band makes the charge voltage and the charge current limit zero,
whatever the rule outcomes, the balancing state and the configured limits
are. -/
theorem temperature_override_351 (s : Snapshot) (bus : CanBus)
    (hrun : s._controller_state = ControllerState.Running)
    (hsens : s.rules.moduleHasExternalTempSensor = true) :
    ∃ f, pylon_message_351 s bus = bus ++ [f] ∧
      f.identifier = 0x351 ∧ f.length = 8 ∧ f.data.length = 8 ∧ (∀ b ∈ f.data, b < 256) ∧
      (outside_discharge_band s → field16 f.data 2 = 0) ∧
      (outside_charge_band s → field16 f.data 0 = 0 ∧ field16 f.data 1 = 0) := by
  refine ⟨_, pylon_message_351_sends s bus, rfl, rfl, rfl, data351_bytes_lt _, ?_, ?_⟩
  · intro h
    show field16 (fill_data351 s).bytes 2 = 0
    rw [field16_bytes_351_2]
    unfold fill_data351
    rw [temperature_check_351_discharge s _ hrun hsens h]
    rfl
  · intro h
    show field16 (fill_data351 s).bytes 0 = 0 ∧ field16 (fill_data351 s).bytes 1 = 0
    rw [field16_bytes_351_0, field16_bytes_351_1]
    unfold fill_data351
    obtain ⟨h0, h1⟩ := temperature_check_351_charge s (policy_351 s) hrun hsens h
    rw [h0, h1]
    exact ⟨rfl, rfl⟩

theorem temperature_override_351_witness :
    out_of_band_snapshot._controller_state = ControllerState.Running ∧
    out_of_band_snapshot.rules.moduleHasExternalTempSensor = true ∧
    outside_discharge_band out_of_band_snapshot ∧ outside_charge_band out_of_band_snapshot ∧
    pylon_message_351 out_of_band_snapshot [] =
      [{ identifier := 0x351, length := 8,
         data := [0x00, 0x00, 0x00, 0x00, 0x00, 0x00, 0xCC, 0x01] }] ∧
    ∃ f, pylon_message_351 out_of_band_snapshot [] = [] ++ [f] ∧
      f.identifier = 0x351 ∧ f.length = 8 ∧ f.data.length = 8 ∧ (∀ b ∈ f.data, b < 256) ∧
      field16 f.data 2 = 0 ∧ field16 f.data 0 = 0 ∧ field16 f.data 1 = 0 := by
  refine ⟨rfl, rfl, by decide, by decide, by decide, ?_⟩
  obtain ⟨f, h, hi, hn, hl, hb, hd, hc⟩ := temperature_override_351 out_of_band_snapshot [] rfl rfl
  exact ⟨f, h, hi, hn, hl, hb, hd (by decide), (hc (by decide)).1, (hc (by decide)).2⟩

/-- C5: for every snapshot, `pylon_message_351` sends identifier 0x351 with 8
bytes of which bytes 6 and 7 are the little-endian configured discharge
voltage; nothing else in the snapshot has a say in them. -/
theorem discharge_voltage_351_is_configured (s : Snapshot) (bus : CanBus) :
    ∃ f, pylon_message_351 s bus = bus ++ [f] ∧ f.identifier = 0x351 ∧ f.length = 8 ∧
      f.data.length = 8 ∧ f.data.drop 6 = le16 s.mysettings.dischargevolt := by
  refine ⟨_, pylon_message_351_sends s bus, rfl, rfl, rfl, ?_⟩
  show (fill_data351 s).bytes.drop 6 = le16 s.mysettings.dischargevolt
  have h : (fill_data351 s).bytes.drop 6 = bytes_u16 (fill_data351 s).battery_discharge_voltage := rfl
  rw [h, fill_data351_discharge_voltage, bytes_u16_to_uint16]

theorem policy_351_normal (s : Snapshot)
    (hrun : s._controller_state = ControllerState.Running) (hq : ¬ qualifying_violation s) :
    policy_351 s =
      if s.rules.numberOfBalancingModules > 0 ∧ s.mysettings.stopchargebalance = true then
        { battery_charge_voltage := 0, battery_charge_current_limit := 0,
          battery_discharge_current_limit := to_int16 s.mysettings.dischargecurrent,
          battery_discharge_voltage := to_uint16 s.mysettings.dischargevolt }
      else
        { battery_charge_voltage := to_uint16 s.mysettings.chargevolt,
          battery_charge_current_limit := to_int16 s.mysettings.chargecurrent,
          battery_discharge_current_limit := to_int16 s.mysettings.dischargecurrent,
          battery_discharge_voltage := to_uint16 s.mysettings.dischargevolt } := by
  have herr : ¬ 0 < number_of_active_errors s := by
    rw [number_of_active_errors_pos_iff s hrun]; exact hq
  unfold policy_351
  simp only [hrun, ne_eq, not_true_eq_false, gt_iff_lt, herr, or_self, if_false]
  split_ifs <;> rfl

theorem pylon_message_351_normal (s : Snapshot) (bus : CanBus)
    (hrun : s._controller_state = ControllerState.Running) (hq : ¬ qualifying_violation s)
    (htemp : s.rules.moduleHasExternalTempSensor = false ∨
      (¬ outside_discharge_band s ∧ ¬ outside_charge_band s)) :
    pylon_message_351 s bus =
      bus ++ [{ identifier := 0x351, length := 8,
                data :=
                  (if s.rules.numberOfBalancingModules > 0 ∧ s.mysettings.stopchargebalance = true
                    then le16 0 ++ le16 0
                    else le16 s.mysettings.chargevolt ++ le16 s.mysettings.chargecurrent) ++
                  le16 s.mysettings.dischargecurrent ++ le16 s.mysettings.dischargevolt }] := by
  rw [pylon_message_351_sends]
  unfold fill_data351
  rw [temperature_check_351_inside s _ htemp, policy_351_normal s hrun hq]
  split_ifs
  · simp only [data351.bytes, bytes_u16_to_uint16, bytes_i16_to_int16]
    rfl
  · simp only [data351.bytes, bytes_u16_to_uint16, bytes_i16_to_int16]

/-- C6, as stated, fails: in the scenario (Running, nothing violated, nothing
balancing, monitoring disabled, no temperature violation, limits 5320 / 370 /
370 / 460) the payload of 0x351 is C8 14 72 01 72 01 CC 01, not
14 02 74 0E 74 0E CC 01. -/
theorem scenario_351_claimed_bytes_refuted :
    scenario_snapshot._controller_state = ControllerState.Running ∧
    (∀ r, scenario_snapshot.rules.rule_outcome r = false) ∧
    scenario_snapshot.rules.numberOfBalancingModules = 0 ∧
    scenario_snapshot.mysettings.currentMonitoringEnabled = false ∧
    scenario_snapshot.rules.moduleHasExternalTempSensor = false ∧
    scenario_snapshot.mysettings.chargevolt = 5320 ∧
    scenario_snapshot.mysettings.chargecurrent = 370 ∧
    scenario_snapshot.mysettings.dischargecurrent = 370 ∧
    scenario_snapshot.mysettings.dischargevolt = 460 ∧
    pylon_message_351 scenario_snapshot [] =
      [{ identifier := 0x351, length := 8,
         data := [0xC8, 0x14, 0x72, 0x01, 0x72, 0x01, 0xCC, 0x01] }] ∧
    pylon_message_351 scenario_snapshot [] ≠
      [{ identifier := 0x351, length := 8,
         data := [0x14, 0x02, 0x74, 0x0E, 0x74, 0x0E, 0xCC, 0x01] }] :=
  ⟨rfl, fun _ => rfl, rfl, rfl, rfl, rfl, rfl, rfl, rfl, by decide, by decide⟩

/-- C6, amended: in the scenario (Running, nothing violated, nothing balancing,
no temperature violation, discharge voltage 460; the monitoring state has no
say) the configured values are sent unscaled, so the payload
14 02 74 0E 74 0E CC 01 belongs to charge voltage 532, charge current 3700 and
discharge current 3700, while charge voltage 5320, charge current 370 and
discharge current 370 give C8 14 72 01 72 01 CC 01. -/
theorem unscaled_scenario_351 (s : Snapshot) (bus : CanBus)
    (hrun : s._controller_state = ControllerState.Running)
    (hrules : ∀ r, s.rules.rule_outcome r = false)
    (hbal : s.rules.numberOfBalancingModules = 0)
    (htemp : s.rules.moduleHasExternalTempSensor = false ∨
      (¬ outside_discharge_band s ∧ ¬ outside_charge_band s))
    (hdv : s.mysettings.dischargevolt = 460) :
    (s.mysettings.chargevolt = 532 → s.mysettings.chargecurrent = 3700 →
      s.mysettings.dischargecurrent = 3700 →
      pylon_message_351 s bus =
        bus ++ [{ identifier := 0x351, length := 8,
                  data := [0x14, 0x02, 0x74, 0x0E, 0x74, 0x0E, 0xCC, 0x01] }]) ∧
    (s.mysettings.chargevolt = 5320 → s.mysettings.chargecurrent = 370 →
      s.mysettings.dischargecurrent = 370 →
      pylon_message_351 s bus =
        bus ++ [{ identifier := 0x351, length := 8,
                  data := [0xC8, 0x14, 0x72, 0x01, 0x72, 0x01, 0xCC, 0x01] }]) := by
  have hq : ¬ qualifying_violation s := by
    unfold qualifying_violation
    simp [hrules]
  have hnb : ¬ (s.rules.numberOfBalancingModules > 0 ∧ s.mysettings.stopchargebalance = true) := by
    rw [hbal]; simp
  have hmsg := pylon_message_351_normal s bus hrun hq htemp
  rw [if_neg hnb, hdv] at hmsg
  constructor
  · intro hcv hcc hdc
    rw [hcv, hcc, hdc] at hmsg
    exact hmsg
  · intro hcv hcc hdc
    rw [hcv, hcc, hdc] at hmsg
    exact hmsg

theorem unscaled_scenario_351_witness :
    pylon_message_351 running_snapshot [] =
      [{ identifier := 0x351, length := 8,
         data := [0x14, 0x02, 0x74, 0x0E, 0x74, 0x0E, 0xCC, 0x01] }] ∧
    pylon_message_351 scenario_snapshot [] =
      [{ identifier := 0x351, length := 8,
         data := [0xC8, 0x14, 0x72, 0x01, 0x72, 0x01, 0xCC, 0x01] }] :=
  ⟨(unscaled_scenario_351 running_snapshot [] rfl (fun _ => rfl) rfl (Or.inl rfl) rfl).1 rfl rfl rfl,
    (unscaled_scenario_351 scenario_snapshot [] rfl (fun _ => rfl) rfl (Or.inl rfl) rfl).2 rfl rfl
      rfl⟩

/-- C7: in a Running snapshot with none of BankOverVoltage, BankUnderVoltage,
BMSError, EmergencyStop violated and either no external sensor or (neither
external temperature rule violated and the temperature range inside both the
charge and the discharge band), the payload of 0x351 is the little-endian
encoding of (cv, cc, dc, dv): dc and dv the configured discharge current limit
and discharge voltage, and (cv, cc) = (0, 0) when a module is balancing and
`stopchargebalance` is set, otherwise the configured charge voltage and charge
current limit; no value is scaled. -/
theorem normal_and_balancing_policy_351 (s : Snapshot) (bus : CanBus)
    (hrun : s._controller_state = ControllerState.Running)
    (hov : s.rules.rule_outcome Rule.BankOverVoltage = false)
    (huv : s.rules.rule_outcome Rule.BankUnderVoltage = false)
    (herr : s.rules.rule_outcome Rule.BMSError = false)
    (hstop : s.rules.rule_outcome Rule.EmergencyStop = false)
    (htemp : s.rules.moduleHasExternalTempSensor = false ∨
      (s.rules.rule_outcome Rule.ModuleOverTemperatureExternal = false ∧
       s.rules.rule_outcome Rule.ModuleUnderTemperatureExternal = false ∧
       s.mysettings.chargetemplow ≤ s.rules.lowestExternalTemp ∧
       s.rules.highestExternalTemp ≤ s.mysettings.chargetemphigh ∧
       s.mysettings.dischargetemplow ≤ s.rules.lowestExternalTemp ∧
       s.rules.highestExternalTemp ≤ s.mysettings.dischargetemphigh)) :
    pylon_message_351 s bus =
      bus ++ [{ identifier := 0x351, length := 8,
                data :=
                  (if s.rules.numberOfBalancingModules > 0 ∧ s.mysettings.stopchargebalance = true
                    then le16 0 ++ le16 0
                    else le16 s.mysettings.chargevolt ++ le16 s.mysettings.chargecurrent) ++
                  le16 s.mysettings.dischargecurrent ++ le16 s.mysettings.dischargevolt }] := by
  apply pylon_message_351_normal s bus hrun
  · unfold qualifying_violation
    rcases htemp with h | ⟨h1, h2, -⟩
    · simp [hov, huv, herr, hstop, h]
    · simp [hov, huv, herr, hstop, h1, h2]
  · rcases htemp with h | ⟨-, -, h1, h2, h3, h4⟩
    · exact Or.inl h
    · refine Or.inr ⟨?_, ?_⟩
      · unfold outside_discharge_band; omega
      · unfold outside_charge_band; omega

theorem normal_and_balancing_policy_351_witness :
    pylon_message_351 balancing_snapshot [] =
      [{ identifier := 0x351, length := 8,
         data := [0x00, 0x00, 0x00, 0x00, 0x74, 0x0E, 0xCC, 0x01] }] ∧
    pylon_message_351 in_band_snapshot [] =
      [{ identifier := 0x351, length := 8,
         data := [0x14, 0x02, 0x74, 0x0E, 0x74, 0x0E, 0xCC, 0x01] }] :=
  ⟨normal_and_balancing_policy_351 balancing_snapshot [] rfl rfl rfl rfl rfl (Or.inl rfl),
    normal_and_balancing_policy_351 in_band_snapshot [] rfl rfl rfl rfl rfl
      (Or.inr ⟨rfl, rfl, by decide, by decide, by decide, by decide⟩)⟩

theorem guard_355_iff (s : Snapshot) :
    guard_355 s = true ↔
      (s._controller_state = ControllerState.Running ∧
        s.mysettings.currentMonitoringEnabled = true ∧ s.currentMonitor.validReadings = true ∧
        s.mysettings.currentMonitoringDevice = CurrentMonitorDevice.DIYBMS_CURRENT_MON) := by
  simp [guard_355, and_assoc]

theorem pylon_message_355_sends (s : Snapshot) (bus : CanBus) (h : guard_355 s = true) :
    pylon_message_355 s bus =
      bus ++ [{ identifier := 0x355, length := 4,
                data := bytes_u16 (if s.mysettings.socoverride = true then 85
                          else to_uint16 s.currentMonitor.stateofcharge) ++ [0x64, 0x00] }] := by
  simp [pylon_message_355, h, send_canbus_message, sizeof_data355, data355.bytes, bytes_u16]

theorem pylon_message_355_silent (s : Snapshot) (bus : CanBus) (h : ¬ guard_355 s = true) :
    pylon_message_355 s bus = bus := by
  simp [pylon_message_355, h]

/-- C8: `pylon_message_355` sends a frame (identifier 0x355, 4 bytes) exactly
when the controller is Running, current monitoring is enabled, the monitor
readings are valid and the configured device is DIYBMS_CURRENT_MON; in every
other case it leaves the bus as it was. -/
theorem emission_condition_355 (s : Snapshot) (bus : CanBus) :
    ((∃ f, pylon_message_355 s bus = bus ++ [f] ∧ f.identifier = 0x355 ∧ f.length = 4 ∧
        f.data.length = 4) ↔
      (s._controller_state = ControllerState.Running ∧
        s.mysettings.currentMonitoringEnabled = true ∧ s.currentMonitor.validReadings = true ∧
        s.mysettings.currentMonitoringDevice = CurrentMonitorDevice.DIYBMS_CURRENT_MON)) ∧
    (¬ (s._controller_state = ControllerState.Running ∧
        s.mysettings.currentMonitoringEnabled = true ∧ s.currentMonitor.validReadings = true ∧
        s.mysettings.currentMonitoringDevice = CurrentMonitorDevice.DIYBMS_CURRENT_MON) →
      pylon_message_355 s bus = bus) := by
  rw [← guard_355_iff]
  refine ⟨⟨?_, ?_⟩, fun h => pylon_message_355_silent s bus h⟩
  · rintro ⟨f, hf, -⟩
    by_contra hg
    rw [pylon_message_355_silent s bus hg] at hf
    simp at hf
  · intro hg
    exact ⟨_, pylon_message_355_sends s bus hg, rfl, rfl, rfl⟩

/-- C9: whenever `pylon_message_355` sends a frame, its state-of-health field
is 100 (bytes 64 00), and when `socoverride` is set the payload is exactly
55 00 64 00 (soc = 85), whatever state of charge the monitor reports. -/
theorem soc_override_355 (s : Snapshot) (bus : CanBus) (hsent : pylon_message_355 s bus ≠ bus) :
    ∃ f, pylon_message_355 s bus = bus ++ [f] ∧ f.identifier = 0x355 ∧ f.length = 4 ∧
      field16 f.data 1 = 100 ∧ f.data.drop 2 = [0x64, 0x00] ∧
      (s.mysettings.socoverride = true → f.data = [0x55, 0x00, 0x64, 0x00]) := by
  have hg : guard_355 s = true := by
    by_contra hg
    exact hsent (pylon_message_355_silent s bus hg)
  refine ⟨_, pylon_message_355_sends s bus hg, rfl, rfl, rfl, rfl, ?_⟩
  intro ho
  simp [ho, bytes_u16]

theorem soc_override_355_witness :
    pylon_message_355 monitored_snapshot [] ≠ [] ∧
    monitored_snapshot.mysettings.socoverride = true ∧
    ∃ f, pylon_message_355 monitored_snapshot [] = [] ++ [f] ∧ f.identifier = 0x355 ∧
      f.length = 4 ∧ field16 f.data 1 = 100 ∧ f.data.drop 2 = [0x64, 0x00] ∧
      (monitored_snapshot.mysettings.socoverride = true → f.data = [0x55, 0x00, 0x64, 0x00]) :=
  ⟨by decide, rfl, soc_override_355 monitored_snapshot [] (by decide)⟩

/-- C10: for every snapshot, `pylon_message_35e` sends identifier 0x35E with
length 8 and payload 50 59 4C 4F 4E 20 20 20 ("PYLON" and three spaces), the
terminating NUL of the string left out. -/
theorem manufacturer_name_35e (s : Snapshot) (bus : CanBus) :
    pylon_message_35e s bus =
      bus ++ [{ identifier := 0x35E, length := 8,
                data := [0x50, 0x59, 0x4C, 0x4F, 0x4E, 0x20, 0x20, 0x20] }] := rfl

/-! ## 0x359 -/

theorem pylon_message_359_sends (s : Snapshot) (bus : CanBus) :
    pylon_message_359 s bus =
      bus ++ [{ identifier := 0x359, length := 8, data := (fill_data359 s).bytes }] := by
  simp [pylon_message_359, send_canbus_message, sizeof_data359, data359.bytes]

theorem round_half_away_div_74 (n : Nat) :
    round_half_away ((n : ℚ) / 74) = (((n + 37) / 74 : Nat) : Int) := by
  have hq : (0 : ℚ) ≤ (n : ℚ) / 74 := by positivity
  unfold round_half_away
  rw [if_pos hq]
  show ⌊(n : ℚ) / 74 + 1 / 2⌋ = _
  rw [Int.floor_eq_iff]
  have h1 : 74 * ((n + 37) / 74) ≤ n + 37 := Nat.mul_div_le (n + 37) 74
  have h2 : n + 37 < 74 * ((n + 37) / 74) + 74 := by omega
  generalize (n + 37) / 74 = k at h1 h2 ⊢
  have h1q : (74 : ℚ) * (k : ℚ) ≤ (n : ℚ) + 37 := by exact_mod_cast h1
  have h2q : (n : ℚ) + 37 < 74 * (k : ℚ) + 74 := by exact_mod_cast h2
  rw [Int.cast_natCast]
  constructor <;> linarith

theorem rounded_packs_eq (n : Nat) : rounded_packs n = (n + 37) / 74 % 256 := by
  unfold rounded_packs int_to_uint8
  rw [round_half_away_div_74]
  omega

theorem fill_data359_byte3 (s : Snapshot) :
    (fill_data359 s).byte3 =
      if s.rules.rule_outcome Rule.BMSError = true ∨ s.rules.rule_outcome Rule.EmergencyStop = true ∨
          s._controller_state ≠ ControllerState.Running then 0x08 else 0x00 := by
  unfold fill_data359
  generalize s.rules.rule_outcome Rule.BMSError = c
  generalize s.rules.rule_outcome Rule.EmergencyStop = d
  by_cases hrun : s._controller_state = ControllerState.Running <;>
    cases c <;> cases d <;> split_ifs <;> simp_all [mask_if, to_uint8, bool_bitor]

theorem fill_data359_byte4 (s : Snapshot) :
    (fill_data359 s).byte4 =
      if (s.mysettings.currentMonitoringEnabled && s.currentMonitor.validReadings) = true then
        min 1 (rounded_packs s.mysettings.nominalbatcap)
      else 1 := by
  unfold fill_data359
  split_ifs <;> rfl

/-- C11: for every snapshot, byte 3 of the 0x359 payload is 0x08 when BMSError
or EmergencyStop is violated or the controller state is not Running, and 0x00
otherwise. -/
theorem not_ok_flag_359 (s : Snapshot) (bus : CanBus) :
    ∃ f, pylon_message_359 s bus = bus ++ [f] ∧ f.identifier = 0x359 ∧ f.length = 8 ∧
      f.data.getD 3 0 =
        if s.rules.rule_outcome Rule.BMSError = true ∨
            s.rules.rule_outcome Rule.EmergencyStop = true ∨
            s._controller_state ≠ ControllerState.Running then 0x08 else 0x00 :=
  ⟨_, pylon_message_359_sends s bus, rfl, rfl, fill_data359_byte3 s⟩

theorem fill_data359_byte0_not_running (s : Snapshot)
    (hrun : s._controller_state ≠ ControllerState.Running) : (fill_data359 s).byte0 = 0 := by
  unfold fill_data359
  simp only [hrun, if_false]
  split_ifs <;> rfl

theorem fill_data359_byte0_running (s : Snapshot)
    (hrun : s._controller_state = ControllerState.Running) :
    (fill_data359 s).byte0 =
      mask_if (s.rules.rule_outcome Rule.BankOverVoltage ||
          s.rules.rule_outcome Rule.CurrentMonitorOverVoltage) 2 +
        mask_if (s.rules.rule_outcome Rule.BankUnderVoltage ||
          s.rules.rule_outcome Rule.CurrentMonitorUnderVoltage) 4 +
        mask_if (s.rules.moduleHasExternalTempSensor &&
          s.rules.rule_outcome Rule.ModuleOverTemperatureExternal) 8 +
        mask_if (s.rules.moduleHasExternalTempSensor &&
          s.rules.rule_outcome Rule.ModuleUnderTemperatureExternal) 16 := by
  unfold fill_data359
  simp only [hrun, if_true, bool_bitor_eq_or]
  generalize (s.rules.rule_outcome Rule.BankOverVoltage ||
    s.rules.rule_outcome Rule.CurrentMonitorOverVoltage) = a
  generalize (s.rules.rule_outcome Rule.BankUnderVoltage ||
    s.rules.rule_outcome Rule.CurrentMonitorUnderVoltage) = b
  generalize s.rules.rule_outcome Rule.ModuleOverTemperatureExternal = e
  generalize s.rules.rule_outcome Rule.ModuleUnderTemperatureExternal = f
  generalize s.rules.moduleHasExternalTempSensor = g
  generalize (s.mysettings.currentMonitoringEnabled && s.currentMonitor.validReadings) = m
  cases a <;> cases b <;> cases e <;> cases f <;> cases g <;> cases m <;> rfl

/-- C12: byte 0 of the 0x359 payload is 0 when the controller state is not
Running; when it is Running, bit 1 is set iff BankOverVoltage or
CurrentMonitorOverVoltage is violated, bit 2 iff BankUnderVoltage or
CurrentMonitorUnderVoltage is violated, bit 3 iff an external sensor is present
and ModuleOverTemperatureExternal is violated, bit 4 iff an external sensor is
present and ModuleUnderTemperatureExternal is violated, and bits 0, 5, 6 and 7
are never set. -/
theorem protection_flags_359 (s : Snapshot) (bus : CanBus) :
    ∃ f, pylon_message_359 s bus = bus ++ [f] ∧
      (s._controller_state ≠ ControllerState.Running → f.data.getD 0 0 = 0) ∧
      (s._controller_state = ControllerState.Running →
        ((f.data.getD 0 0).testBit 1 = true ↔
          (s.rules.rule_outcome Rule.BankOverVoltage = true ∨
            s.rules.rule_outcome Rule.CurrentMonitorOverVoltage = true)) ∧
        ((f.data.getD 0 0).testBit 2 = true ↔
          (s.rules.rule_outcome Rule.BankUnderVoltage = true ∨
            s.rules.rule_outcome Rule.CurrentMonitorUnderVoltage = true)) ∧
        ((f.data.getD 0 0).testBit 3 = true ↔
          (s.rules.moduleHasExternalTempSensor = true ∧
            s.rules.rule_outcome Rule.ModuleOverTemperatureExternal = true)) ∧
        ((f.data.getD 0 0).testBit 4 = true ↔
          (s.rules.moduleHasExternalTempSensor = true ∧
            s.rules.rule_outcome Rule.ModuleUnderTemperatureExternal = true))) ∧
      (f.data.getD 0 0).testBit 0 = false ∧ (f.data.getD 0 0).testBit 5 = false ∧
      (f.data.getD 0 0).testBit 6 = false ∧ (f.data.getD 0 0).testBit 7 = false ∧
      f.data.getD 0 0 < 256 := by
  refine ⟨_, pylon_message_359_sends s bus, ?_⟩
  show (_ → (fill_data359 s).byte0 = 0) ∧ (_ → (((fill_data359 s).byte0).testBit 1 = true ↔ _) ∧
    (((fill_data359 s).byte0).testBit 2 = true ↔ _) ∧
    (((fill_data359 s).byte0).testBit 3 = true ↔ _) ∧
    (((fill_data359 s).byte0).testBit 4 = true ↔ _)) ∧
    ((fill_data359 s).byte0).testBit 0 = false ∧ ((fill_data359 s).byte0).testBit 5 = false ∧
    ((fill_data359 s).byte0).testBit 6 = false ∧ ((fill_data359 s).byte0).testBit 7 = false ∧
    (fill_data359 s).byte0 < 256
  by_cases hrun : s._controller_state = ControllerState.Running
  · rw [fill_data359_byte0_running s hrun]
    refine ⟨fun h => absurd hrun h, fun _ => ?_, ?_⟩
    · rw [← Bool.or_eq_true, ← Bool.or_eq_true, ← Bool.and_eq_true, ← Bool.and_eq_true]
      generalize (s.rules.rule_outcome Rule.BankOverVoltage ||
        s.rules.rule_outcome Rule.CurrentMonitorOverVoltage) = a
      generalize (s.rules.rule_outcome Rule.BankUnderVoltage ||
        s.rules.rule_outcome Rule.CurrentMonitorUnderVoltage) = b
      generalize (s.rules.moduleHasExternalTempSensor &&
        s.rules.rule_outcome Rule.ModuleOverTemperatureExternal) = c
      generalize (s.rules.moduleHasExternalTempSensor &&
        s.rules.rule_outcome Rule.ModuleUnderTemperatureExternal) = d
      cases a <;> cases b <;> cases c <;> cases d <;> decide
    · generalize (s.rules.rule_outcome Rule.BankOverVoltage ||
        s.rules.rule_outcome Rule.CurrentMonitorOverVoltage) = a
      generalize (s.rules.rule_outcome Rule.BankUnderVoltage ||
        s.rules.rule_outcome Rule.CurrentMonitorUnderVoltage) = b
      generalize (s.rules.moduleHasExternalTempSensor &&
        s.rules.rule_outcome Rule.ModuleOverTemperatureExternal) = c
      generalize (s.rules.moduleHasExternalTempSensor &&
        s.rules.rule_outcome Rule.ModuleUnderTemperatureExternal) = d
      cases a <;> cases b <;> cases c <;> cases d <;> decide
  · rw [fill_data359_byte0_not_running s hrun]
    exact ⟨fun _ => rfl, fun h => absurd h hrun, by decide⟩

/-- C13 fails on the code: with current monitoring enabled, valid readings and
a nominal capacity of 148 Ah, byte 4 of the 0x359 payload is 1 (the code takes
`min(1, 2)`), not max(1, round(148 / 74)) = 2. -/
theorem pack_count_359_two_packs_sends_one :
    two_pack_snapshot.mysettings.currentMonitoringEnabled = true ∧
    two_pack_snapshot.currentMonitor.validReadings = true ∧
    two_pack_snapshot.mysettings.nominalbatcap = 148 ∧
    rounded_packs 148 = 2 ∧
    pylon_message_359 two_pack_snapshot [] =
      [{ identifier := 0x359, length := 8,
         data := [0x00, 0x00, 0x00, 0x00, 0x01, 0x50, 0x4E, 0x00] }] := by
  refine ⟨rfl, rfl, rfl, by rw [rounded_packs_eq], ?_⟩
  have h4 : (fill_data359 two_pack_snapshot).byte4 = 1 := by
    rw [fill_data359_byte4, rounded_packs_eq]
    rfl
  rw [pylon_message_359_sends]
  simp only [data359.bytes, h4]
  rfl

/-- C14 fails on the code: with current monitoring enabled, valid readings and
a nominal capacity of 0 Ah (or 36 Ah) byte 4 of the 0x359 payload is 0, below
the minimum of 1 the claim states. -/
theorem pack_count_359_small_capacity_sends_zero :
    (capacity_snapshot 0).mysettings.currentMonitoringEnabled = true ∧
    (capacity_snapshot 0).currentMonitor.validReadings = true ∧
    (capacity_snapshot 0).mysettings.nominalbatcap = 0 ∧
    pylon_message_359 (capacity_snapshot 0) [] =
      [{ identifier := 0x359, length := 8,
         data := [0x00, 0x00, 0x00, 0x00, 0x00, 0x50, 0x4E, 0x00] }] ∧
    pylon_message_359 (capacity_snapshot 36) [] =
      [{ identifier := 0x359, length := 8,
         data := [0x00, 0x00, 0x00, 0x00, 0x00, 0x50, 0x4E, 0x00] }] := by
  have h0 : (fill_data359 (capacity_snapshot 0)).byte4 = 0 := by
    rw [fill_data359_byte4, rounded_packs_eq]
    rfl
  have h36 : (fill_data359 (capacity_snapshot 36)).byte4 = 0 := by
    rw [fill_data359_byte4, rounded_packs_eq]
    rfl
  refine ⟨rfl, rfl, rfl, ?_, ?_⟩
  · rw [pylon_message_359_sends]
    simp only [data359.bytes, h0]
    rfl
  · rw [pylon_message_359_sends]
    simp only [data359.bytes, h36]
    rfl

/-- C17: for every snapshot, byte 4 of the 0x359 payload is at most 1,
whatever the nominal battery capacity and the monitoring state are. -/
theorem pack_count_359_at_most_one (s : Snapshot) (bus : CanBus) :
    ∃ f, pylon_message_359 s bus = bus ++ [f] ∧ f.identifier = 0x359 ∧ f.length = 8 ∧
      f.data.getD 4 0 ≤ 1 := by
  refine ⟨_, pylon_message_359_sends s bus, rfl, rfl, ?_⟩
  show (fill_data359 s).byte4 ≤ 1
  rw [fill_data359_byte4]
  split_ifs
  · exact Nat.min_le_left _ _
  · exact Nat.le_refl 1

/-! ## 0x35C while running -/

theorem fill_data35c_byte1 (s : Snapshot) : (fill_data35c s).byte1 = 0 := by
  unfold fill_data35c
  split_ifs <;> rfl

theorem fill_data35c_byte0_not_running (s : Snapshot)
    (hrun : s._controller_state ≠ ControllerState.Running) : (fill_data35c s).byte0 = 0 := by
  unfold fill_data35c
  simp [hrun]

theorem fill_data35c_byte0_running (s : Snapshot)
    (hrun : s._controller_state = ControllerState.Running) :
    (fill_data35c s).byte0 =
      (if s.rules.moduleHasExternalTempSensor = true ∧ outside_charge_band s then 0 else 0x80) +
        (if s.rules.moduleHasExternalTempSensor = true ∧ outside_discharge_band s then 0
          else 0x40) := by
  unfold fill_data35c
  by_cases hs : s.rules.moduleHasExternalTempSensor = true
  · by_cases hd : outside_discharge_band s <;> by_cases hc : outside_charge_band s
    · simp [hrun, hs, hd, hc, (bool_bitor_discharge_band s).2 hd, (bool_bitor_charge_band s).2 hc]
      decide
    · have hc' := (not_congr (bool_bitor_charge_band s)).2 hc
      simp [hrun, hs, hd, hc, (bool_bitor_discharge_band s).2 hd, hc']
      decide
    · have hd' := (not_congr (bool_bitor_discharge_band s)).2 hd
      simp [hrun, hs, hd, hc, hd', (bool_bitor_charge_band s).2 hc]
      decide
    · have hd' := (not_congr (bool_bitor_discharge_band s)).2 hd
      have hc' := (not_congr (bool_bitor_charge_band s)).2 hc
      simp [hrun, hs, hd, hc, hd', hc']
  · simp [hrun, hs]

/-- C15: in a Running snapshot, `pylon_message_35c` sends identifier 0x35C with
byte 1 = 0 and a byte 0 in which bit 6 (discharge enable) is cleared iff an
external sensor is present and the temperature range is outside the discharge
band, bit 7 (charge enable) is cleared iff an external sensor is present and
the range is outside the charge band, and the lower six bits are 0; byte 0 is
one of 0xC0, 0x80, 0x40, 0x00. -/
theorem enable_bits_35c_while_running (s : Snapshot) (bus : CanBus)
    (hrun : s._controller_state = ControllerState.Running) :
    ∃ b0, pylon_message_35c s bus = bus ++ [{ identifier := 0x35c, length := 2, data := [b0, 0] }] ∧
      (b0.testBit 6 = false ↔
        (s.rules.moduleHasExternalTempSensor = true ∧ outside_discharge_band s)) ∧
      (b0.testBit 7 = false ↔
        (s.rules.moduleHasExternalTempSensor = true ∧ outside_charge_band s)) ∧
      b0 % 64 = 0 ∧ (b0 = 0xC0 ∨ b0 = 0x80 ∨ b0 = 0x40 ∨ b0 = 0x00) := by
  refine ⟨(fill_data35c s).byte0, ?_, ?_⟩
  · rw [pylon_message_35c_sends]
    simp only [data35c.bytes, fill_data35c_byte1]
  · rw [fill_data35c_byte0_running s hrun]
    by_cases hc : s.rules.moduleHasExternalTempSensor = true ∧ outside_charge_band s <;>
      by_cases hd : s.rules.moduleHasExternalTempSensor = true ∧ outside_discharge_band s
    · rw [if_pos hc, if_pos hd]
      exact ⟨iff_of_true (by decide) hd, iff_of_true (by decide) hc, by decide, by decide⟩
    · rw [if_pos hc, if_neg hd]
      exact ⟨iff_of_false (by decide) hd, iff_of_true (by decide) hc, by decide, by decide⟩
    · rw [if_neg hc, if_pos hd]
      exact ⟨iff_of_true (by decide) hd, iff_of_false (by decide) hc, by decide, by decide⟩
    · rw [if_neg hc, if_neg hd]
      exact ⟨iff_of_false (by decide) hd, iff_of_false (by decide) hc, by decide, by decide⟩

theorem enable_bits_35c_while_running_witness :
    out_of_band_snapshot._controller_state = ControllerState.Running ∧
    ∃ b0, pylon_message_35c out_of_band_snapshot [] =
        [] ++ [{ identifier := 0x35c, length := 2, data := [b0, 0] }] ∧
      (b0.testBit 6 = false ↔
        (out_of_band_snapshot.rules.moduleHasExternalTempSensor = true ∧
          outside_discharge_band out_of_band_snapshot)) ∧
      (b0.testBit 7 = false ↔
        (out_of_band_snapshot.rules.moduleHasExternalTempSensor = true ∧
          outside_charge_band out_of_band_snapshot)) ∧
      b0 % 64 = 0 ∧ (b0 = 0xC0 ∨ b0 = 0x80 ∨ b0 = 0x40 ∨ b0 = 0x00) :=
  ⟨rfl, enable_bits_35c_while_running out_of_band_snapshot [] rfl⟩

/-! ## 0x356 without a current monitor -/

theorem pylon_message_356_sends (s : Snapshot) (bus : CanBus) :
    pylon_message_356 s bus =
      bus ++ [{ identifier := 0x356, length := 6, data := (fill_data356 s).bytes }] := by
  simp [pylon_message_356, send_canbus_message, sizeof_data356, data356.bytes, bytes_u16,
    bytes_i16]

theorem bytes_i16_eq_le16 (v : Int) : bytes_i16 v = le16 v := by
  unfold bytes_i16 bytes_u16 le16
  congr 1
  · omega
  · congr 1
    omega

theorem le16_congr (a b : Int) (h : a % 65536 = b % 65536) : le16 a = le16 b := by
  unfold le16
  congr 1
  · omega
  · congr 1
    omega

theorem le16_to_int16 (v : Int) : le16 (to_int16 v) = le16 v := by
  apply le16_congr
  unfold to_int16
  omega

theorem le16_temperature (t : Int) : le16 (to_int16 (to_int16 t * to_int16 10)) = le16 (t * 10) := by
  apply le16_congr
  have h10 : to_int16 10 = 10 := rfl
  rw [h10]
  unfold to_int16
  omega

/-- C16: when current monitoring is disabled or its readings are invalid,
`pylon_message_356` sends identifier 0x356 with 6 bytes, the little-endian
16-bit encodings of voltage = highestPackVoltage / 10 (truncated, modulo 2^16),
current = 0 and temperature = highestExternalTemp * 10 with an external sensor
and 0 without; the controller state plays no part. -/
theorem no_monitor_356 (s : Snapshot) (bus : CanBus)
    (hmon : s.mysettings.currentMonitoringEnabled = false ∨ s.currentMonitor.validReadings = false) :
    pylon_message_356 s bus =
      bus ++ [{ identifier := 0x356, length := 6,
                data := le16 ((s.rules.highestPackVoltage / 10 : Nat) : Int) ++ le16 0 ++
                  le16 (if s.rules.moduleHasExternalTempSensor = true
                    then s.rules.highestExternalTemp * 10 else 0) }] := by
  have hm : (s.mysettings.currentMonitoringEnabled && s.currentMonitor.validReadings) = false := by
    rcases hmon with h | h <;> simp [h]
  rw [pylon_message_356_sends]
  unfold fill_data356
  simp only [hm, data356.bytes, bytes_i16_eq_le16, Bool.false_eq_true, if_false]
  split_ifs
  · rw [le16_to_int16, le16_temperature]
  · rw [le16_to_int16]

theorem no_monitor_356_witness :
    in_band_snapshot.mysettings.currentMonitoringEnabled = false ∧
    pylon_message_356 in_band_snapshot [] =
      [{ identifier := 0x356, length := 6, data := [0x0B, 0x02, 0x00, 0x00, 0xFA, 0x00] }] ∧
    pylon_message_356 starting_snapshot [] =
      [{ identifier := 0x356, length := 6, data := [0x0B, 0x02, 0x00, 0x00, 0x00, 0x00] }] :=
  ⟨rfl, no_monitor_356 in_band_snapshot [] (Or.inl rfl),
    no_monitor_356 starting_snapshot [] (Or.inl rfl)⟩

/-! ## Consistency across frames -/

theorem fill_data351_zero_of_not_ok (s : Snapshot)
    (h : s.rules.rule_outcome Rule.BMSError = true ∨ s.rules.rule_outcome Rule.EmergencyStop = true ∨
      s._controller_state ≠ ControllerState.Running) :
    limits_zero (fill_data351 s) := by
  by_cases hrun : s._controller_state = ControllerState.Running
  · apply fill_data351_zero_of_violation s hrun
    unfold qualifying_violation
    rcases h with h | h | h
    · exact Or.inr (Or.inr (Or.inl h))
    · exact Or.inr (Or.inr (Or.inr (Or.inl h)))
    · exact absurd hrun h
  · unfold fill_data351
    exact temperature_check_351_zero s _ (policy_351_zero s (Or.inl hrun))

theorem fill_data35c_bit6_cleared (s : Snapshot)
    (hrun : s._controller_state = ControllerState.Running)
    (h : (fill_data35c s).byte0.testBit 6 = false) :
    s.rules.moduleHasExternalTempSensor = true ∧ outside_discharge_band s := by
  rw [fill_data35c_byte0_running s hrun] at h
  by_contra hd
  rw [if_neg hd] at h
  split_ifs at h <;> exact absurd h (by decide)

theorem fill_data35c_bit7_cleared (s : Snapshot)
    (hrun : s._controller_state = ControllerState.Running)
    (h : (fill_data35c s).byte0.testBit 7 = false) :
    s.rules.moduleHasExternalTempSensor = true ∧ outside_charge_band s := by
  rw [fill_data35c_byte0_running s hrun] at h
  by_contra hc
  rw [if_neg hc] at h
  split_ifs at h <;> exact absurd h (by decide)

/-- C18: for every snapshot, `pylon_message_359` sends a 0x359 frame of 8
bytes and `pylon_message_351` a 0x351 frame of 8 bytes, and if bit 3 of byte 3
of the 0x359 payload is set, the 0x351 payload has charge voltage, charge
current limit and discharge current limit all 0. -/
theorem not_ok_flag_implies_zero_limits (s : Snapshot) (bus : CanBus) :
    ∃ g f, pylon_message_359 s bus = bus ++ [g] ∧ pylon_message_351 s bus = bus ++ [f] ∧
      g.identifier = 0x359 ∧ g.length = 8 ∧ g.data.length = 8 ∧
      f.identifier = 0x351 ∧ f.length = 8 ∧ f.data.length = 8 ∧ (∀ b ∈ f.data, b < 256) ∧
      ((g.data.getD 3 0).testBit 3 = true → ∀ k, k < 3 → field16 f.data k = 0) := by
  refine ⟨_, _, pylon_message_359_sends s bus, pylon_message_351_sends s bus,
    rfl, rfl, rfl, rfl, rfl, rfl, data351_bytes_lt _, ?_⟩
  intro hbit k hk
  have hbit' : (fill_data359 s).byte3.testBit 3 = true := hbit
  rw [fill_data359_byte3] at hbit'
  have hcond : s.rules.rule_outcome Rule.BMSError = true ∨
      s.rules.rule_outcome Rule.EmergencyStop = true ∨
      s._controller_state ≠ ControllerState.Running := by
    by_contra hn
    rw [if_neg hn] at hbit'
    exact absurd hbit' (by decide)
  exact field16_zero_of_limits_zero _ (fill_data351_zero_of_not_ok s hcond) k hk

/-- C19: for every snapshot, `pylon_message_35c` sends a 0x35C frame of 2
bytes and `pylon_message_351` a 0x351 frame of 8 bytes; if the discharge-enable
bit (bit 6 of byte 0) of the former is cleared the 0x351 payload has discharge
current limit 0, and if the charge-enable bit (bit 7) is cleared the 0x351
payload has charge voltage 0 and charge current limit 0. -/
theorem cleared_enable_bits_imply_zero_limits (s : Snapshot) (bus : CanBus) :
    ∃ g f, pylon_message_35c s bus = bus ++ [g] ∧ pylon_message_351 s bus = bus ++ [f] ∧
      g.identifier = 0x35c ∧ g.length = 2 ∧ g.data.length = 2 ∧
      f.identifier = 0x351 ∧ f.length = 8 ∧ f.data.length = 8 ∧ (∀ b ∈ f.data, b < 256) ∧
      ((g.data.getD 0 0).testBit 6 = false → field16 f.data 2 = 0) ∧
      ((g.data.getD 0 0).testBit 7 = false → field16 f.data 0 = 0 ∧ field16 f.data 1 = 0) := by
  refine ⟨_, _, pylon_message_35c_sends s bus, pylon_message_351_sends s bus,
    rfl, rfl, rfl, rfl, rfl, rfl, data351_bytes_lt _, ?_, ?_⟩
  · intro hbit
    show field16 (fill_data351 s).bytes 2 = 0
    by_cases hrun : s._controller_state = ControllerState.Running
    · obtain ⟨hs, hd⟩ := fill_data35c_bit6_cleared s hrun hbit
      rw [field16_bytes_351_2]
      unfold fill_data351
      rw [temperature_check_351_discharge s _ hrun hs hd]
      rfl
    · exact field16_zero_of_limits_zero _ (fill_data351_zero_of_not_ok s (Or.inr (Or.inr hrun))) 2
        (by decide)
  · intro hbit
    show field16 (fill_data351 s).bytes 0 = 0 ∧ field16 (fill_data351 s).bytes 1 = 0
    by_cases hrun : s._controller_state = ControllerState.Running
    · obtain ⟨hs, hc⟩ := fill_data35c_bit7_cleared s hrun hbit
      rw [field16_bytes_351_0, field16_bytes_351_1]
      unfold fill_data351
      obtain ⟨h0, h1⟩ := temperature_check_351_charge s (policy_351 s) hrun hs hc
      rw [h0, h1]
      exact ⟨rfl, rfl⟩
    · have hz := fill_data351_zero_of_not_ok s (Or.inr (Or.inr hrun))
      exact ⟨field16_zero_of_limits_zero _ hz 0 (by decide),
        field16_zero_of_limits_zero _ hz 1 (by decide)⟩

/-- C20: the converse fails: there is a Running snapshot (BankOverVoltage
violated, no external sensor) for which 0x351 carries charge voltage, charge
current limit and discharge current limit 0 while 0x35C carries byte 0 = 0xC0,
both enable bits set. -/
theorem zero_limits_with_enable_bits_set :
    ∃ s : Snapshot, s._controller_state = ControllerState.Running ∧
      s.rules.rule_outcome Rule.BankOverVoltage = true ∧
      s.rules.moduleHasExternalTempSensor = false ∧
      pylon_message_351 s [] =
        [{ identifier := 0x351, length := 8,
           data := [0x00, 0x00, 0x00, 0x00, 0x00, 0x00, 0xCC, 0x01] }] ∧
      pylon_message_35c s [] = [{ identifier := 0x35c, length := 2, data := [0xC0, 0x00] }] :=
  ⟨over_voltage_snapshot, rfl, rfl, rfl, by decide, by decide⟩

end PylonCanbus
